import Mathlib

/-!
Verification of the NS-3 batch tester (`nsbt.py`): a shallow embedding of the
orchestrator's configuration-driven command construction, per-scenario process
execution with timeout, and batch iteration, together with theorems settling
the specification's claims about them.
-/

namespace NSBT

/-- A JSON-decoded Python value, as produced by `json.load`: `None`, booleans,
integers, strings, lists, and string-keyed dicts (association list in document
order; keys assumed distinct, as `json.load` collapses duplicates). -/
inductive PyVal where
  | none
  | bool (b : Bool)
  | int (n : Int)
  | str (s : String)
  | list (xs : List PyVal)
  | dict (kvs : List (String × PyVal))

mutual

/-- Python `repr()` of a JSON-decoded value. Scalars are exact
(`None`/`True`/`False`, decimal integers, quoted strings); for nested lists and
dicts the CPython layout (`[a, b]`, `{k: v}`) is followed, with quote/backslash
escaping inside nested strings not modelled — the configuration format's
argument values are scalars, so no claim exercises that corner. -/
def pyRepr : PyVal → String
  | .none => "None"
  | .bool true => "True"
  | .bool false => "False"
  | .int n => toString n
  | .str s => "\x27" ++ s ++ "\x27"
  | .list xs => "[" ++ String.intercalate ", " (pyReprList xs) ++ "]"
  | .dict kvs => "\x7b" ++ String.intercalate ", " (pyReprDict kvs) ++ "\x7d"

/-- `repr` of each element of a Python list. -/
def pyReprList : List PyVal → List String
  | [] => []
  | x :: xs => pyRepr x :: pyReprList xs

/-- `repr` of each `key: value` entry of a Python dict. -/
def pyReprDict : List (String × PyVal) → List String
  | [] => []
  | kv :: kvs => ("\x27" ++ kv.1 ++ "\x27: " ++ pyRepr kv.2) :: pyReprDict kvs

end

/-- Python `str()` of a value, as interpolated by an f-string such as
`f"--\x7bname\x7d=\x7bvalue\x7d"`: identical to `repr` except that a top-level
string is inserted verbatim. -/
def pyStr : PyVal → String
  | .str s => s
  | v => pyRepr v

/-- One scenario's configuration object, per the configuration format:
`test_name` (absent, or a string — JSON `null` is conflated with absence, as
`dict.get` returns `None` for both) and `arguments` (absent, or an arbitrary
JSON value; the code type-switches on it at runtime). -/
structure TestConfig where
  test_name : Option String := Option.none
  arguments : Option PyVal := Option.none

/-- The error message of the `ValueError` raised by `_build_command` when
`test_name` is missing or falsy. -/
def missingTestNameMsg : String := "Missing \x27test_name\x27 in test configuration"

/-- The error raised when a pair-list element is not a dict: Python evaluates
`arg.get(\x27name\x27)` and a non-dict has no `get` attribute. -/
def attributeErrorMsg : String := "AttributeError: object has no attribute get"

/-- Python `d.get(k)`: the value stored at `k`, or `None` when `k` is absent
(so a stored JSON `null` and an absent key are indistinguishable, exactly as in
the source's `is not None` checks). -/
def dictGet (kvs : List (String × PyVal)) (k : String) : PyVal :=
  match kvs.find? (fun kv => kv.1 = k) with
  | some kv => kv.2
  | Option.none => PyVal.none

/-- The dict branch of `_build_command`: for each `name, value` entry, in the
dict's own (insertion) order, emit `--name=value` with Python stringification. -/
def encodeDictArgs (kvs : List (String × PyVal)) : List String :=
  kvs.map (fun kv => "--" ++ kv.1 ++ "=" ++ pyStr kv.2)

/-- The list branch of `_build_command`: for each element, read `name` and
`value` via `dict.get`; emit `--name=value` only when both are non-`None`,
otherwise skip the element. A non-dict element raises (`AttributeError`), which
propagates out of the builder. -/
def encodeListArgs : List PyVal → Except String (List String)
  | [] => .ok []
  | e :: rest =>
    match e with
    | .dict kvs =>
      match dictGet kvs "name", dictGet kvs "value" with
      | PyVal.none, _ => encodeListArgs rest
      | _, PyVal.none => encodeListArgs rest
      | n, v => (encodeListArgs rest).map
          (fun ts => ("--" ++ pyStr n ++ "=" ++ pyStr v) :: ts)
    | _ => .error attributeErrorMsg

/-- The argument-encoding dispatch of `_build_command`, lines 29–42: a dict is
encoded entry-wise, a list element-wise; any other value (including absence,
whose default is `[]`) contributes no tokens and no error. -/
def argTokens : PyVal → Except String (List String)
  | .dict kvs => .ok (encodeDictArgs kvs)
  | .list xs => encodeListArgs xs
  | _ => .ok []

/-- Python `" ".join(parts)`: the parts separated by single spaces, with no
leading or trailing separator. -/
def joinSpace : List String → String
  | [] => ""
  | [x] => x
  | x :: xs => x ++ " " ++ joinSpace xs

/-- `NS3BatchTester._build_command`: raises `ValueError` when `test_name` is
missing or empty (Python falsy for an optional string), otherwise joins the
scenario name and the encoded tokens with single spaces into one combined
string and returns `[exe, "run", combined]`, where `exe` is the launcher
executable path held by the tester. -/
def buildCommand (exe : String) (cfg : TestConfig) : Except String (List String) :=
  match cfg.test_name with
  | Option.none => .error missingTestNameMsg
  | some name =>
    if name = "" then .error missingTestNameMsg
    else
      match argTokens (cfg.arguments.getD (PyVal.list [])) with
      | .error e => .error e
      | .ok toks => .ok [exe, "run", joinSpace (name :: toks)]

/-- Python `s[-n:]`: the last `min(n, len(s))` characters of `s`. -/
def strTail (n : Nat) (s : String) : String :=
  String.mk (s.data.drop (s.data.length - n))

/-- The classified outcome of one scenario. -/
inductive Outcome where
  | success
  | failure (code : Int)
  | timeout
  | launchError (msg : String)
deriving DecidableEq

/-- What the child process does once `run_test` reaches `subprocess.Popen`:
it exits with a code and final stdout/stderr texts within the timeout, it is
still running when the timeout elapses, or the spawn itself fails with an
OS-level error. -/
inductive ProcBehavior where
  | exits (code : Int) (stdout stderr : String)
  | hangs
  | launchFailure (msg : String)
deriving DecidableEq

/-- The reported result of one scenario: the outcome, the stdout/stderr text
retained for console reporting (`""` when nothing is reported — the source
prints `s[-500:]` only for non-empty `s`, and the last 500 characters of `""`
are `""`), and whether `process.kill()` was invoked. -/
structure ExecutionResult where
  outcome : Outcome
  stdoutTail : String
  stderrTail : String
  killed : Bool
deriving DecidableEq

/-- `NS3BatchTester.run_test`: builds the command — NOTE: outside the
`try`/`except`, so a builder error propagates to the caller — then spawns the
process and classifies: exit code 0 → `Success` with the last 500 characters of
stdout; nonzero exit → `Failure(code)` with the last 500 characters of stdout
and stderr; `TimeoutExpired` → `process.kill()` and `Timeout` with no output
captured; an exception from `Popen` → `LaunchError` via the outer
`except Exception`. -/
def runTest (exe : String) (cfg : TestConfig) (b : ProcBehavior) :
    Except String ExecutionResult :=
  match buildCommand exe cfg with
  | .error e => .error e
  | .ok _cmd =>
    match b with
    | .exits code out err =>
      if code = 0 then .ok ⟨.success, strTail 500 out, "", false⟩
      else .ok ⟨.failure code, strTail 500 out, strTail 500 err, false⟩
    | .hangs => .ok ⟨.timeout, "", "", true⟩
    | .launchFailure msg => .ok ⟨.launchError msg, "", "", false⟩

/-- The iteration core of `run_batch`: scenarios (id, configuration, and the
child process's behavior) are processed strictly in order; each successful
`run_test` yields exactly one result; an error escaping `run_test` (only the
builder's `ValueError` / `AttributeError` can) aborts the loop — the pending
and remaining scenarios produce no result and the exception is recorded. -/
def runScenarios (exe : String) :
    List (String × TestConfig × ProcBehavior) →
    List (String × ExecutionResult) × Option String
  | [] => ([], Option.none)
  | (tid, cfg, b) :: rest =>
    match runTest exe cfg b with
    | .error e => ([], some e)
    | .ok r =>
      let tail := runScenarios exe rest
      ((tid, r) :: tail.fst, tail.snd)

/-- The top-level shape of a parsed configuration document, with scenario
entries embedded as `TestConfig` records: a dict of id → scenario, a list of
scenarios, or any other JSON value. -/
inductive ConfigShape where
  | dict (items : List (String × TestConfig))
  | list (items : List TestConfig)
  | other

/-- What `run_batch` finds at its configuration path: no file, a file that
`json.load` cannot parse, or a parsed document. -/
inductive ConfigSource where
  | missingFile
  | unparsable
  | parsed (shape : ConfigShape)

/-- How a whole `run_batch` call ends: `sys.exit(code)` during loading (fatal,
before any scenario), the wrong-top-level-shape path (prints an error and
returns normally — the process then exits 0), or the iteration's results
together with an optional uncaught per-scenario exception. -/
inductive BatchResult where
  | fatalExit (code : Nat)
  | shapeErrorReturn
  | ran (results : List (String × ExecutionResult)) (uncaught : Option String)
deriving DecidableEq

/-- `NS3BatchTester.run_batch`: missing file → `sys.exit(1)`; JSON parse error
→ `sys.exit(1)`; a list runs scenarios in index order with ids `test_<index>`;
a dict runs them in document order keyed by id; any other top-level shape
prints an error message and returns without running anything. `behav` gives
each scenario position's child-process behavior. -/
def runBatch (exe : String) (src : ConfigSource) (behav : Nat → ProcBehavior) :
    BatchResult :=
  match src with
  | .missingFile => .fatalExit 1
  | .unparsable => .fatalExit 1
  | .parsed (.list items) =>
    let out := runScenarios exe
      (items.enum.map (fun p => ("test_" ++ toString p.fst, p.snd, behav p.fst)))
    .ran out.fst out.snd
  | .parsed (.dict items) =>
    let out := runScenarios exe
      (items.enum.map (fun p => (p.snd.fst, p.snd.snd, behav p.fst)))
    .ran out.fst out.snd
  | .parsed .other => .shapeErrorReturn

/-- Whether an `Except` result is a normal return (no exception raised). -/
def isOkE {ε α : Type} : Except ε α → Bool
  | .ok _ => true
  | .error _ => false

/-- Whether a value is a Python dict or list — the two `isinstance` branches
of the argument encoder. -/
def isDictOrList : PyVal → Bool
  | .dict _ => true
  | .list _ => true
  | _ => false

/-- Whether every element of a list-shaped value is a dict (so the pair-list
branch performs no `arg.get` on a non-dict); vacuously true for non-lists. -/
def listElemsAreDicts : PyVal → Bool
  | .list xs => xs.all (fun e => match e with | .dict _ => true | _ => false)
  | _ => true

/-! ### Helper lemmas -/

theorem joinSpace_cons_of_ne_nil (x : String) (xs : List String) (h : xs ≠ []) :
    joinSpace (x :: xs) = x ++ " " ++ joinSpace xs := by
  cases xs with
  | nil => exact absurd rfl h
  | cons y ys => rfl

theorem encodeListArgs_error_eq (xs : List PyVal) (e : String)
    (h : encodeListArgs xs = .error e) : e = attributeErrorMsg := by
  induction xs generalizing e with
  | nil => simp [encodeListArgs] at h
  | cons a rest ih =>
    cases a with
    | dict kvs =>
      rw [encodeListArgs] at h
      cases hn : dictGet kvs "name" <;> cases hv : dictGet kvs "value" <;>
        rw [hn, hv] at h <;> first
        | exact ih h
        | · cases hrest : encodeListArgs rest with
            | ok ts => rw [hrest] at h; simp [Except.map] at h
            | error e2 => rw [hrest] at h; simp [Except.map] at h; exact h ▸ ih e2 hrest
    | none => simp [encodeListArgs] at h; exact h.symm
    | bool b => simp [encodeListArgs] at h; exact h.symm
    | int n => simp [encodeListArgs] at h; exact h.symm
    | str s => simp [encodeListArgs] at h; exact h.symm
    | list ys => simp [encodeListArgs] at h; exact h.symm

theorem encodeListArgs_ok_of_all_dicts (xs : List PyVal)
    (h : ∀ e ∈ xs, ∃ kvs, e = PyVal.dict kvs) :
    ∃ ts, encodeListArgs xs = .ok ts := by
  induction xs with
  | nil => exact ⟨[], rfl⟩
  | cons a rest ih =>
    obtain ⟨kvs, rfl⟩ := h a (by simp)
    obtain ⟨ts, hts⟩ := ih (fun e he => h e (by simp [he]))
    rw [encodeListArgs]
    cases hn : dictGet kvs "name" <;> cases hv : dictGet kvs "value" <;>
      simp [hts, Except.map]

/-! ### Claims -/

/-- C4 (counterexample): at scenario name `"demo"` with an empty argument
list — whose encoded token sequence is empty — `_build_command` returns the
combined string `"demo"`, not the claim's `scenario_name` followed by a single
space and the space-joined tokens, which here would be `"demo "` with a
trailing space. -/
theorem buildCommand_empty_tokens_cex :
    buildCommand "/ns/ns3" ⟨some "demo", some (.list [])⟩ =
      .ok ["/ns/ns3", "run", "demo"] ∧
    buildCommand "/ns/ns3" ⟨some "demo", some (.list [])⟩ ≠
      .ok ["/ns/ns3", "run", "demo" ++ " " ++ joinSpace ([] : List String)] := by
  refine ⟨rfl, fun h => ?_⟩
  have h0 : buildCommand "/ns/ns3" ⟨some "demo", some (.list [])⟩ =
      .ok ["/ns/ns3", "run", "demo"] := rfl
  rw [h0] at h
  injection h with h1
  exact absurd h1 (by decide)

/-- C4 (amended): for every non-empty scenario name, every argument set, and
every **non-empty** token sequence it encodes to, the invocation vector is
`[launcher_path, "run", combined]` with `combined` the scenario name followed
by a single space and the space-joined tokens; for the empty token sequence
`combined` is the scenario name alone (no trailing space). In particular
`"demo"` with tokens `["--n=5"]` gives `[launcher_path, "run", "demo --n=5"]`. -/
theorem buildCommand_invocation_vector
    (exe name : String) (args : PyVal) (toks : List String)
    (hname : name ≠ "") (htoks : argTokens args = .ok toks) :
    (toks ≠ [] →
      buildCommand exe ⟨some name, some args⟩ =
        .ok [exe, "run", name ++ " " ++ joinSpace toks]) ∧
    (toks = [] →
      buildCommand exe ⟨some name, some args⟩ = .ok [exe, "run", name]) := by
  constructor
  · intro h
    simp [buildCommand, hname, Option.getD, htoks, joinSpace_cons_of_ne_nil name toks h]
  · intro h
    subst h
    simp [buildCommand, hname, Option.getD, htoks, joinSpace]

/-- C4 (witness): the amended theorem applied at scenario name `"demo"` and
argument mapping `{n: 5}`, whose token sequence is `["--n=5"]`. -/
theorem buildCommand_invocation_vector_checked :
    buildCommand "/ns/ns3" ⟨some "demo", some (.dict [("n", .int 5)])⟩ =
      .ok ["/ns/ns3", "run", "demo --n=5"] := by
  exact (buildCommand_invocation_vector "/ns/ns3" "demo" (.dict [("n", .int 5)])
    ["--n=5"] (by decide) (by rfl)).1 (by decide)

/-- C7: a mapping ArgumentSet encodes to exactly one `--name=value` token per
entry, with Python stringification of the value, preserving the mapping's own
iteration order; in particular `{a: 1, b: "x"}` encodes to
`["--a=1", "--b=x"]`. -/
theorem argTokens_dict_one_token_per_entry (kvs : List (String × PyVal)) :
    argTokens (.dict kvs) =
      .ok (kvs.map (fun kv => "--" ++ kv.1 ++ "=" ++ pyStr kv.2)) ∧
    argTokens (.dict [("a", .int 1), ("b", .str "x")]) = .ok ["--a=1", "--b=x"] :=
  ⟨rfl, rfl⟩

/-- C10: a scenario whose `arguments` field is absent, or present but neither
a dict nor a list (e.g. a string or a number), yields no tokens and no error:
the combined string is exactly the scenario name with no trailing space and
the invocation vector is `[launcher_path, "run", name]`. -/
theorem buildCommand_non_collection_arguments
    (exe name : String) (hname : name ≠ "") :
    buildCommand exe ⟨some name, Option.none⟩ = .ok [exe, "run", name] ∧
    ∀ v, isDictOrList v = false →
      buildCommand exe ⟨some name, some v⟩ = .ok [exe, "run", name] := by
  constructor
  · simp [buildCommand, hname, Option.getD, argTokens, encodeListArgs, joinSpace]
  · intro v hv
    cases v <;> simp_all [isDictOrList, buildCommand, argTokens, joinSpace]

/-- C10 (witness): an absent `arguments` field and a string-valued
`arguments` field both give `[launcher_path, "run", "demo"]`. -/
theorem buildCommand_non_collection_arguments_checked :
    buildCommand "/ns/ns3" ⟨some "demo", Option.none⟩ =
      .ok ["/ns/ns3", "run", "demo"] ∧
    buildCommand "/ns/ns3" ⟨some "demo", some (.str "oops")⟩ =
      .ok ["/ns/ns3", "run", "demo"] :=
  ⟨(buildCommand_non_collection_arguments "/ns/ns3" "demo" (by decide)).1,
   (buildCommand_non_collection_arguments "/ns/ns3" "demo" (by decide)).2
     (.str "oops") rfl⟩

/-- C5: for a scenario whose command builds and whose child process exits
within the timeout, exit code 0 classifies as `Success` with the last 500
characters of stdout retained, and a nonzero exit code `c` classifies as
`Failure(c)` with the last 500 characters of both stdout and stderr retained
(nothing is killed in either case). -/
theorem runTest_exit_classification
    (exe : String) (cfg : TestConfig) (cmd : List String)
    (hb : buildCommand exe cfg = .ok cmd) (c : Int) (out err : String) :
    runTest exe cfg (.exits 0 out err) =
      .ok ⟨.success, strTail 500 out, "", false⟩ ∧
    (c ≠ 0 → runTest exe cfg (.exits c out err) =
      .ok ⟨.failure c, strTail 500 out, strTail 500 err, false⟩) := by
  refine ⟨by simp [runTest, hb], fun hc => ?_⟩
  simp [runTest, hb, hc]

/-- C5 (witness): a scenario exiting 0 yields `Success` with its stdout tail;
one exiting 2 yields `Failure(2)` with both tails. -/
theorem runTest_exit_classification_checked :
    runTest "/ns/ns3" ⟨some "t", Option.none⟩ (.exits 0 "hello" "") =
      .ok ⟨.success, strTail 500 "hello", "", false⟩ ∧
    runTest "/ns/ns3" ⟨some "t", Option.none⟩ (.exits 2 "o" "e") =
      .ok ⟨.failure 2, strTail 500 "o", strTail 500 "e", false⟩ :=
  ⟨(runTest_exit_classification "/ns/ns3" ⟨some "t", Option.none⟩
      ["/ns/ns3", "run", "t"] (by rfl) 2 "hello" "").1,
   (runTest_exit_classification "/ns/ns3" ⟨some "t", Option.none⟩
      ["/ns/ns3", "run", "t"] (by rfl) 2 "o" "e").2 (by decide)⟩

/-- C6: for a scenario whose command builds and whose child process is still
running when the timeout elapses, `process.kill()` is invoked and the outcome
is `Timeout` with no output captured; the batch then continues with the
remaining scenarios unchanged, this scenario contributing exactly its one
result. -/
theorem runTest_timeout_kill_and_continue
    (exe tid : String) (cfg : TestConfig) (cmd : List String)
    (hb : buildCommand exe cfg = .ok cmd)
    (rest : List (String × TestConfig × ProcBehavior)) :
    runTest exe cfg .hangs = .ok ⟨.timeout, "", "", true⟩ ∧
    runScenarios exe ((tid, cfg, .hangs) :: rest) =
      ((tid, ⟨.timeout, "", "", true⟩) :: (runScenarios exe rest).fst,
        (runScenarios exe rest).snd) := by
  have h1 : runTest exe cfg .hangs = .ok ⟨.timeout, "", "", true⟩ := by
    simp [runTest, hb]
  exact ⟨h1, by simp [runScenarios, h1]⟩

/-- C6 (witness): a hanging scenario is killed, reported as `Timeout`, and the
next scenario still runs. -/
theorem runTest_timeout_kill_and_continue_checked :
    runTest "/ns/ns3" ⟨some "t", Option.none⟩ .hangs =
      .ok ⟨.timeout, "", "", true⟩ ∧
    runScenarios "/ns/ns3"
        [("t1", ⟨some "t", Option.none⟩, .hangs),
         ("t2", ⟨some "u", Option.none⟩, .exits 0 "" "")] =
      (("t1", ⟨.timeout, "", "", true⟩) ::
          (runScenarios "/ns/ns3" [("t2", ⟨some "u", Option.none⟩, .exits 0 "" "")]).fst,
        (runScenarios "/ns/ns3" [("t2", ⟨some "u", Option.none⟩, .exits 0 "" "")]).snd) :=
  runTest_timeout_kill_and_continue "/ns/ns3" "t1" ⟨some "t", Option.none⟩
    ["/ns/ns3", "run", "t"] (by rfl)
    [("t2", ⟨some "u", Option.none⟩, .exits 0 "" "")]

/-- C1: a scenario whose reported outcome is `Failure`, `Timeout`, or
`LaunchError` never aborts the batch: it contributes exactly one result and
the iteration proceeds to every subsequent scenario, in order (the tail of
the batch is processed exactly as it would be on its own). -/
theorem runScenarios_fault_isolation
    (exe tid : String) (cfg : TestConfig) (b : ProcBehavior)
    (rest : List (String × TestConfig × ProcBehavior)) (r : ExecutionResult)
    (hok : runTest exe cfg b = .ok r)
    (hout : (∃ c, r.outcome = .failure c) ∨ r.outcome = .timeout ∨
      (∃ m, r.outcome = .launchError m)) :
    runScenarios exe ((tid, cfg, b) :: rest) =
      ((tid, r) :: (runScenarios exe rest).fst, (runScenarios exe rest).snd) := by
  simp [runScenarios, hok]

/-- C1 (witness): a three-scenario batch whose second scenario exits with
code 2 still reports all three scenarios in order. -/
theorem runScenarios_fault_isolation_checked :
    runScenarios "/ns/ns3"
        [("s2", ⟨some "b", Option.none⟩, .exits 2 "out" "err"),
         ("s3", ⟨some "c", Option.none⟩, .exits 0 "" ""),
         ("s4", ⟨some "d", Option.none⟩, .launchFailure "no such file")] =
      (("s2", ⟨.failure 2, strTail 500 "out", strTail 500 "err", false⟩) ::
          (runScenarios "/ns/ns3"
            [("s3", ⟨some "c", Option.none⟩, .exits 0 "" ""),
             ("s4", ⟨some "d", Option.none⟩, .launchFailure "no such file")]).fst,
        (runScenarios "/ns/ns3"
          [("s3", ⟨some "c", Option.none⟩, .exits 0 "" ""),
           ("s4", ⟨some "d", Option.none⟩, .launchFailure "no such file")]).snd) :=
  runScenarios_fault_isolation "/ns/ns3" "s2" ⟨some "b", Option.none⟩
    (.exits 2 "out" "err")
    [("s3", ⟨some "c", Option.none⟩, .exits 0 "" ""),
     ("s4", ⟨some "d", Option.none⟩, .launchFailure "no such file")]
    ⟨.failure 2, strTail 500 "out", strTail 500 "err", false⟩
    (by rfl) (Or.inl ⟨2, rfl⟩)

/-- C2: evaluating the batch on a configuration whose first scenario lacks
`test_name` (with a well-formed second scenario): `_build_command` raises
`ValueError` **before** `run_test` enters its `try` block, the exception
escapes `run_batch`'s loop, no result is reported for either scenario, and the
second scenario never executes — contradicting the claim (and `run_test`'s own
stated error handling), which require a logged per-scenario outcome and
continuation. -/
theorem missing_test_name_aborts_batch :
    runBatch "/ns/ns3"
        (.parsed (.list [⟨Option.none, Option.none⟩, ⟨some "t2", Option.none⟩]))
        (fun _ => .exits 0 "" "") =
      .ran [] (some missingTestNameMsg) := by rfl

/-- C3 (counterexample): a parsed configuration whose top level is neither a
dict nor a list makes `run_batch` print an error and return normally (the
process then exits 0) — it does not fail fast with a fatal error, unlike the
missing-file and parse-failure cases which call `sys.exit(1)`; no scenario is
executed either way. -/
theorem wrong_shape_not_fatal_cex :
    runBatch "/ns/ns3" (.parsed .other) (fun _ => .exits 0 "" "") =
      .shapeErrorReturn ∧
    (∀ c, (BatchResult.shapeErrorReturn : BatchResult) ≠ .fatalExit c) :=
  ⟨rfl, fun _ h => nomatch h⟩

/-- C3 (amended): an unreadable (missing) configuration file and one that
fails to parse abort the whole batch fatally (`sys.exit(1)`) before any
scenario is considered; a top-level shape that is neither a dict nor a list
also executes no scenario, but only prints an error and returns normally
rather than exiting fatally. -/
theorem runBatch_loading_errors (exe : String) (behav : Nat → ProcBehavior) :
    runBatch exe .missingFile behav = .fatalExit 1 ∧
    runBatch exe .unparsable behav = .fatalExit 1 ∧
    runBatch exe (.parsed .other) behav = .shapeErrorReturn :=
  ⟨rfl, rfl, rfl⟩

theorem encodeListArgs_skip_entry (kvs : List (String × PyVal)) (post : List PyVal)
    (hmiss : dictGet kvs "name" = PyVal.none ∨ dictGet kvs "value" = PyVal.none) :
    encodeListArgs (PyVal.dict kvs :: post) = encodeListArgs post := by
  rcases hmiss with h | h
  · simp [encodeListArgs, h]
  · cases hn : dictGet kvs "name" <;> simp [encodeListArgs, hn, h]

theorem argTokens_error_eq (v : PyVal) (e : String)
    (h : argTokens v = .error e) : e = attributeErrorMsg := by
  cases v <;> first
    | exact encodeListArgs_error_eq _ e h
    | simp [argTokens] at h

theorem argTokens_ok_of_listElemsAreDicts (v : PyVal)
    (h : listElemsAreDicts v = true) : ∃ ts, argTokens v = .ok ts := by
  cases v with
  | list xs =>
    refine encodeListArgs_ok_of_all_dicts xs ?_
    intro e he
    have he2 := (List.all_eq_true.mp h) e he
    cases e <;> simp_all
  | dict kvs => exact ⟨_, rfl⟩
  | none => exact ⟨[], rfl⟩
  | bool b => exact ⟨[], rfl⟩
  | int n => exact ⟨[], rfl⟩
  | str s => exact ⟨[], rfl⟩

/-- C8 (counterexample): the mapping `{a: null}` encodes to `["--a=None"]` —
the entry with a `null` (missing) value is **not** dropped — while the
corresponding pair list `[{name: "a", value: null}]` encodes to `[]`, so the
two representations do not resolve to the same flattened token sequence. -/
theorem null_value_entry_cex :
    argTokens (.dict [("a", PyVal.none)]) = .ok ["--a=None"] ∧
    argTokens (.list [.dict [("name", .str "a"), ("value", PyVal.none)]]) =
      .ok [] ∧
    (["--a=None"] : List String) ≠ [] :=
  ⟨rfl, rfl, by decide⟩

/-- C8 (amended): in the pair-list representation an entry whose `name` or
`value` is missing (`dict.get` conflates an absent key with a stored JSON
`null`) is silently dropped — no error and no partial token — while every
other entry is unaffected. In the mapping representation no entry is ever
dropped (a `null` value is stringified as `None`), so the two representations
resolve to the same flattened token sequence on argument sets whose values
are all non-`null`. -/
theorem argument_entry_dropping
    (pre post : List PyVal) (kvs : List (String × PyVal))
    (mapping : List (String × PyVal))
    (hmiss : dictGet kvs "name" = PyVal.none ∨ dictGet kvs "value" = PyVal.none)
    (hnn : ∀ kv ∈ mapping, kv.2 ≠ PyVal.none) :
    encodeListArgs (pre ++ PyVal.dict kvs :: post) =
      encodeListArgs (pre ++ post) ∧
    encodeListArgs (mapping.map (fun kv =>
        PyVal.dict [("name", .str kv.1), ("value", kv.2)])) =
      .ok (encodeDictArgs mapping) := by
  constructor
  · induction pre with
    | nil => exact encodeListArgs_skip_entry kvs post hmiss
    | cons e pre ih =>
      cases e with
      | dict kvs0 =>
        cases hn : dictGet kvs0 "name" <;> cases hv : dictGet kvs0 "value" <;>
          simp [encodeListArgs, hn, hv, ih]
      | none => simp [encodeListArgs]
      | bool b => simp [encodeListArgs]
      | int n => simp [encodeListArgs]
      | str s => simp [encodeListArgs]
      | list ys => simp [encodeListArgs]
  · induction mapping with
    | nil => simp [encodeListArgs, encodeDictArgs]
    | cons kv rest ih =>
      obtain ⟨k, v⟩ := kv
      have hkv : v ≠ PyVal.none := hnn (k, v) (List.mem_cons_self _ _)
      have ih2 := ih (fun x hx => hnn x (List.mem_cons_of_mem _ hx))
      have hname : dictGet [("name", PyVal.str k), ("value", v)] "name" =
        PyVal.str k := rfl
      have hvalue : dictGet [("name", PyVal.str k), ("value", v)] "value" = v := rfl
      cases hv : v <;> first
        | exact absurd hv hkv
        | simp_all [encodeListArgs, encodeDictArgs, pyStr, Except.map]

/-- C8 (witness): the amended theorem at a pair list whose first entry misses
`value` (it is dropped, the following entry survives) and at the mapping
`{p: 1}` (which agrees with its pair-list form). -/
theorem argument_entry_dropping_checked :
    encodeListArgs [PyVal.dict [("name", .str "a")],
        PyVal.dict [("name", .str "b"), ("value", .int 2)]] =
      encodeListArgs [PyVal.dict [("name", .str "b"), ("value", .int 2)]] ∧
    encodeListArgs [PyVal.dict [("name", .str "p"), ("value", .int 1)]] =
      .ok (encodeDictArgs [("p", .int 1)]) :=
  argument_entry_dropping []
    [PyVal.dict [("name", .str "b"), ("value", .int 2)]]
    [("name", .str "a")] [("p", .int 1)] (Or.inr rfl) (by simp)

/-- C9 (counterexample): the configuration with non-empty `test_name` `"t"`
and `arguments` a list containing the non-dict element `"foo"` does not
return an invocation vector: `arg.get` on a non-dict raises
(`AttributeError`), an error that is not the missing-`test_name`
configuration error. -/
theorem attribute_error_with_valid_name_cex :
    ("t" : String) ≠ "" ∧
    buildCommand "/ns/ns3" ⟨some "t", some (.list [.str "foo"])⟩ =
      .error attributeErrorMsg ∧
    isOkE (buildCommand "/ns/ns3" ⟨some "t", some (.list [.str "foo"])⟩) =
      false :=
  ⟨by decide, rfl, rfl⟩

/-- C9 (amended): `_build_command` raises its missing-`test_name`
configuration error exactly when `test_name` is absent or empty; with a
non-empty `test_name` it returns an invocation vector without error provided
every element of a list-shaped `arguments` field is a dict (a list containing
a non-dict raises a different, `AttributeError`-style error instead). -/
theorem buildCommand_error_iff (exe : String) (tn : Option String)
    (args : Option PyVal) :
    (buildCommand exe ⟨tn, args⟩ = .error missingTestNameMsg ↔
      (tn = Option.none ∨ tn = some "")) ∧
    (∀ name, tn = some name → name ≠ "" →
      listElemsAreDicts (args.getD (PyVal.list [])) = true →
      isOkE (buildCommand exe ⟨tn, args⟩) = true) := by
  cases tn with
  | none =>
    exact ⟨⟨fun _ => Or.inl rfl, fun _ => rfl⟩, fun name hname => nomatch hname⟩
  | some name =>
    by_cases hne : name = ""
    · subst hne
      refine ⟨⟨fun _ => Or.inr rfl, fun _ => by simp [buildCommand]⟩, ?_⟩
      intro name2 hname2 hne2 _
      injection hname2 with h2
      exact absurd h2.symm hne2
    · constructor
      · constructor
        · intro h
          exfalso
          simp only [buildCommand] at h
          rw [if_neg hne] at h
          cases ha : argTokens (args.getD (PyVal.list [])) with
          | ok ts => rw [ha] at h; exact nomatch h
          | error e =>
            rw [ha] at h
            have he : e = missingTestNameMsg := by injection h
            have ha2 : e = attributeErrorMsg := argTokens_error_eq _ e ha
            rw [ha2] at he
            exact absurd he (by decide)
        · intro h
          rcases h with h | h
          · exact nomatch h
          · injection h with h2
            exact absurd h2 hne
      · intro name2 hname2 hne2 hdicts
        injection hname2 with h2
        subst h2
        obtain ⟨ts, hts⟩ := argTokens_ok_of_listElemsAreDicts _ hdicts
        simp [buildCommand, hne, hts, isOkE]

/-- C9 (witness): the amended theorem at a configuration with no `test_name`
(the configuration error is raised) and at one with `test_name` `"t"` and no
arguments (an invocation vector is returned without error). -/
theorem buildCommand_error_iff_checked :
    buildCommand "/ns/ns3" (⟨Option.none, Option.none⟩ : TestConfig) =
      .error missingTestNameMsg ∧
    isOkE (buildCommand "/ns/ns3" (⟨some "t", Option.none⟩ : TestConfig)) =
      true :=
  ⟨(buildCommand_error_iff "/ns/ns3" Option.none Option.none).1.mpr
      (Or.inl rfl),
   (buildCommand_error_iff "/ns/ns3" (some "t") Option.none).2 "t" rfl
     (by decide) (by rfl)⟩

end NSBT
